import Mathlib

/-!
Shallow embedding of the performance-scoring and match-quality engine of the
dota2-advanced-matchmaking-system repository, together with theorems settling
the specification claims.  Python numbers are modelled as exact rationals;
Python float division, which raises `ZeroDivisionError` on a zero divisor, is
modelled as an `Option`-valued division (`none` = the call raises).
-/

/-- Python division `a / b`: raises (`none`) when the divisor is zero. -/
def fdiv (a b : ℚ) : Option ℚ := if b = 0 then none else some (a / b)

theorem fdiv_of_ne {a b : ℚ} (h : b ≠ 0) : fdiv a b = some (a / b) := by
  simp [fdiv, h]

theorem fdiv_zero (a : ℚ) : fdiv a 0 = none := by simp [fdiv]

namespace Metrics

/-- The five roles of `MetricsCalculator.role_weights` and the expectation
tables (`src/algo_matchmaking/analysis/metrics.py`). -/
inductive Role
  | carry
  | mid
  | offlane
  | soft_support
  | hard_support
deriving DecidableEq, Repr

/-- All five roles, for quantified statements over the closed enumeration. -/
def Role.all : List Role :=
  [.carry, .mid, .offlane, .soft_support, .hard_support]

instance : Fintype Role :=
  ⟨⟨{.carry, .mid, .offlane, .soft_support, .hard_support}, by decide⟩,
   by intro x; cases x <;> decide⟩

/-- `GameMetrics` dataclass of `analysis/metrics.py` (all defaults 0). -/
structure GameMetrics where
  kills : ℤ := 0
  deaths : ℤ := 0
  assists : ℤ := 0
  last_hits : ℤ := 0
  denies : ℤ := 0
  gpm : ℚ := 0
  xpm : ℚ := 0
  hero_damage : ℤ := 0
  tower_damage : ℤ := 0
  hero_healing : ℤ := 0
  stun_duration : ℚ := 0
  camps_stacked : ℤ := 0
  runes_collected : ℤ := 0
  wards_placed : ℤ := 0
  wards_destroyed : ℤ := 0
  teamfight_participation : ℚ := 0
deriving DecidableEq, Repr

/-- The `game_data` dict consumed by the calculators.  `duration`,
`team_damage` and `team_fights` are accessed with `game_data[...]`
(required keys); the remaining keys are read with `.get(key, default)`
and are therefore modelled as `Option` fields, the Python default being
applied at the use site.  `lane_participation` is a dict whose values are
summed; only the list of values matters. -/
structure GameData where
  duration : ℤ
  team_damage : ℤ
  team_fights : ℤ
  teleports_used : Option ℤ := none
  lane_participation : List ℚ := []
  objective_presence : Option ℚ := none
  enemy_attention_score : Option ℚ := none
  rotations_forced : Option ℤ := none
  team_tower_damage : Option ℤ := none
  roshan_participation : Option ℚ := none
  objective_control : Option ℚ := none
  teamfight_damage_share : Option ℚ := none
  total_fight_duration : Option ℤ := none
deriving DecidableEq, Repr

/-- `MetricsCalculator.role_weights`: the per-role weight tables. -/
def role_weights : Role → List (String × ℚ)
  | .carry =>
      [("farm_efficiency", 0.3), ("damage_output", 0.3),
       ("survival", 0.2), ("objective_focus", 0.2)]
  | .mid =>
      [("farm_efficiency", 0.25), ("damage_output", 0.3),
       ("map_presence", 0.25), ("objective_focus", 0.2)]
  | .offlane =>
      [("space_creation", 0.3), ("survival", 0.25),
       ("damage_output", 0.25), ("objective_focus", 0.2)]
  | .soft_support =>
      [("map_presence", 0.3), ("utility", 0.3),
       ("teamfight_impact", 0.2), ("vision_control", 0.2)]
  | .hard_support =>
      [("vision_control", 0.3), ("utility", 0.3),
       ("survival", 0.2), ("teamfight_impact", 0.2)]

/-- `role_expectations` of `calculate_farming_efficiency`: (cs, gpm). -/
def role_expectations : Role → ℚ × ℚ
  | .carry => (10, 600)
  | .mid => (8, 550)
  | .offlane => (6, 450)
  | .soft_support => (2, 300)
  | .hard_support => (1, 250)

/-- `MetricsCalculator.calculate_farming_efficiency`.  The division
`last_hits / (expected_cs * minutes)` is unguarded: with
`game_duration = 0` it raises (`none`). -/
def calculate_farming_efficiency (metrics : GameMetrics) (game_duration : ℤ)
    (role : Role) : Option ℚ :=
  let minutes : ℚ := (game_duration : ℚ) / 60
  let expected := role_expectations role
  (fdiv (metrics.last_hits : ℚ) (expected.1 * minutes)).map fun raw_cs =>
    let cs_score := min 1 raw_cs
    let gpm_score := min 1 (metrics.gpm / expected.2)
    (cs_score + gpm_score) / 2

/-- `role_damage_expectations` of `calculate_combat_efficiency`. -/
def role_damage_expectations : Role → ℚ
  | .carry => 0.35
  | .mid => 0.30
  | .offlane => 0.20
  | .soft_support => 0.10
  | .hard_support => 0.05

/-- `MetricsCalculator.calculate_combat_efficiency`: the divisors are
clamped with `max(1, ...)`, so the function is total. -/
def calculate_combat_efficiency (metrics : GameMetrics) (team_damage : ℤ)
    (role : Role) : ℚ :=
  let damage_share := (metrics.hero_damage : ℚ) / ((max 1 team_damage : ℤ) : ℚ)
  let kda := ((metrics.kills + metrics.assists : ℤ) : ℚ) /
    ((max 1 metrics.deaths : ℤ) : ℚ)
  let damage_score := min 1 (damage_share / role_damage_expectations role)
  let kda_score := min 1 (kda / 4)
  damage_score * 0.6 + kda_score * 0.4

/-- `MetricsCalculator.calculate_vision_score`: divides by `minutes`
(raises when `game_duration = 0`). -/
def calculate_vision_score (metrics : GameMetrics) (game_duration : ℤ) :
    Option ℚ :=
  let minutes : ℚ := (game_duration : ℚ) / 60
  (fdiv (metrics.wards_placed : ℚ) minutes).bind fun placed_rate =>
    (fdiv (metrics.wards_destroyed : ℚ) minutes).map fun destroyed_rate =>
      let ward_score := placed_rate * 0.6 + destroyed_rate * 0.4
      min 1 (ward_score / 2)

/-- `MetricsCalculator.calculate_utility_score`: the divisor
`team_fights * 5` is NOT clamped, so `team_fights = 0` raises (`none`). -/
def calculate_utility_score (metrics : GameMetrics) (team_fights : ℤ) :
    Option ℚ :=
  (fdiv metrics.stun_duration ((team_fights : ℚ) * 5)).map fun stun_raw =>
    let stun_score := min 1 stun_raw
    let healing_score := min 1 ((metrics.hero_healing : ℚ) / 5000)
    let teamfight_score := min 1 metrics.teamfight_participation
    stun_score * 0.4 + healing_score * 0.3 + teamfight_score * 0.3

/-- `role_death_thresholds` of `calculate_survival_score`. -/
def role_death_thresholds : Role → ℚ
  | .carry => 0.12
  | .mid => 0.14
  | .offlane => 0.16
  | .soft_support => 0.2
  | .hard_support => 0.25

/-- `MetricsCalculator.calculate_survival_score`: divides by `minutes`,
raising when `game_duration = 0`.  The `hasattr(metrics,
'death_impact_score')` branch never fires because `GameMetrics` has no
such field, so it is omitted. -/
def calculate_survival_score (metrics : GameMetrics) (game_duration : ℤ)
    (role : Role) : Option ℚ :=
  let minutes : ℚ := (game_duration : ℚ) / 60
  (fdiv (metrics.deaths : ℚ) minutes).map fun death_rate =>
    let threshold := role_death_thresholds role
    let survival_score := max 0 (1 - death_rate / threshold)
    min 1 survival_score

/-- `MetricsCalculator.calculate_map_presence`: `tp_score` is clamped but
the final blend is returned unclamped. -/
def calculate_map_presence (_metrics : GameMetrics) (game_data : GameData) :
    ℚ :=
  let tp_score := min 1 ((game_data.teleports_used.getD 0 : ℚ) / 10)
  let lane_presence := game_data.lane_participation.sum / 3
  let objective_presence := game_data.objective_presence.getD 0.5
  tp_score * 0.3 + lane_presence * 0.4 + objective_presence * 0.3

/-- `MetricsCalculator.calculate_space_creation`: `game_data['duration']`
is clamped with `max(1, ...)` and the final blend is clamped to 1. -/
def calculate_space_creation (metrics : GameMetrics) (game_data : GameData) :
    ℚ :=
  let attention_score := game_data.enemy_attention_score.getD 0.5
  let tower_pressure :=
    (metrics.tower_damage : ℚ) / ((max 1 game_data.duration : ℤ) : ℚ)
  let rotations_forced := (game_data.rotations_forced.getD 0 : ℚ) / 10
  let space_score := attention_score * 0.4 +
    min 1 (tower_pressure / 100) * 0.3 + min 1 rotations_forced * 0.3
  min 1 space_score

/-- `MetricsCalculator.calculate_objective_focus`: `tower_contribution`
uses a clamped divisor but is itself unclamped, and the final blend is
returned unclamped. -/
def calculate_objective_focus (metrics : GameMetrics) (game_data : GameData) :
    ℚ :=
  let tower_contribution := (metrics.tower_damage : ℚ) /
    ((max 1 (game_data.team_tower_damage.getD 1) : ℤ) : ℚ)
  let roshan_score := game_data.roshan_participation.getD 0
  let objective_control := game_data.objective_control.getD 0
  tower_contribution * 0.5 + roshan_score * 0.3 + objective_control * 0.2

/-- `MetricsCalculator.calculate_teamfight_impact`: `utility_impact` uses
a clamped divisor but is itself unclamped, and the final blend is
returned unclamped. -/
def calculate_teamfight_impact (metrics : GameMetrics) (game_data : GameData) :
    ℚ :=
  let participation := metrics.teamfight_participation
  let fight_impact := game_data.teamfight_damage_share.getD 0
  let utility_impact := metrics.stun_duration /
    ((max 1 (game_data.total_fight_duration.getD 1) : ℤ) : ℚ)
  participation * 0.4 + fight_impact * 0.3 + utility_impact * 0.3

/-- Structural well-formedness of a stats record per the spec's data
model (§3): counters nonnegative, the teamfight-participation ratio in
[0,1]. -/
def WellFormedStats (m : GameMetrics) : Prop :=
  0 ≤ m.kills ∧ 0 ≤ m.deaths ∧ 0 ≤ m.assists ∧ 0 ≤ m.last_hits ∧
  0 ≤ m.denies ∧ 0 ≤ m.gpm ∧ 0 ≤ m.xpm ∧ 0 ≤ m.hero_damage ∧
  0 ≤ m.tower_damage ∧ 0 ≤ m.hero_healing ∧ 0 ≤ m.stun_duration ∧
  0 ≤ m.camps_stacked ∧ 0 ≤ m.runes_collected ∧ 0 ≤ m.wards_placed ∧
  0 ≤ m.wards_destroyed ∧ 0 ≤ m.teamfight_participation ∧
  m.teamfight_participation ≤ 1

instance (m : GameMetrics) : Decidable (WellFormedStats m) := by
  unfold WellFormedStats; infer_instance

/-- Structural well-formedness of the `game_data` record per the spec's
data model: counters nonnegative, the per-lane participation values (at
most the game's three lanes) and the ratio-valued optional fields in
[0,1] where present (stated via the defaulted value actually used). -/
def WellFormedGameData (gd : GameData) : Prop :=
  0 ≤ gd.teleports_used.getD 0 ∧
  gd.lane_participation.length ≤ 3 ∧
  (∀ x ∈ gd.lane_participation, 0 ≤ x ∧ x ≤ 1) ∧
  0 ≤ gd.objective_presence.getD 0.5 ∧ gd.objective_presence.getD 0.5 ≤ 1 ∧
  0 ≤ gd.enemy_attention_score.getD 0.5 ∧
  gd.enemy_attention_score.getD 0.5 ≤ 1 ∧
  0 ≤ gd.rotations_forced.getD 0 ∧
  0 ≤ gd.roshan_participation.getD 0 ∧ gd.roshan_participation.getD 0 ≤ 1 ∧
  0 ≤ gd.objective_control.getD 0 ∧ gd.objective_control.getD 0 ≤ 1 ∧
  0 ≤ gd.teamfight_damage_share.getD 0 ∧
  gd.teamfight_damage_share.getD 0 ≤ 1

instance (gd : GameData) : Decidable (WellFormedGameData gd) := by
  unfold WellFormedGameData; infer_instance

end Metrics

namespace Exceptional

/-- `ExceptionalMetrics` dataclass of `analysis/exceptional.py`. -/
structure ExceptionalMetrics where
  combat_score : ℚ := 0
  farm_efficiency : ℚ := 0
  map_impact : ℚ := 0
  objective_control : ℚ := 0
  teamfight_contribution : ℚ := 0
  vision_control : ℚ := 0
  utility_score : ℚ := 0
  game_impact : ℚ := 0
deriving DecidableEq, Repr

/-- The `ExceptionalAnalyzer` config fields read by the embedded
functions. -/
structure Config where
  exceptional_threshold : ℚ
  excellent_threshold : ℚ
  very_good_threshold : ℚ
  max_mmr_gain : ℚ
  min_game_duration : ℤ
  min_teamfight_participation : ℚ
deriving Repr

/-- `ExceptionalAnalyzer.default_config` (the fields used here). -/
def default_config : Config where
  exceptional_threshold := 0.90
  excellent_threshold := 0.80
  very_good_threshold := 0.70
  max_mmr_gain := 5
  min_game_duration := 1500
  min_teamfight_participation := 0.6

/-- The `weights` dict of `ExceptionalAnalyzer.calculate_game_impact`. -/
def game_impact_weights : List (String × ℚ) :=
  [("combat", 0.25), ("farm", 0.15), ("map_impact", 0.15),
   ("objective", 0.15), ("teamfight", 0.15), ("vision", 0.08),
   ("utility", 0.07)]

/-- `ExceptionalAnalyzer.calculate_game_impact`. -/
def calculate_game_impact (m : ExceptionalMetrics) : ℚ :=
  m.combat_score * 0.25 + m.farm_efficiency * 0.15 + m.map_impact * 0.15 +
  m.objective_control * 0.15 + m.teamfight_contribution * 0.15 +
  m.vision_control * 0.08 + m.utility_score * 0.07

/-- `ExceptionalAnalyzer.determine_tier_and_adjustment`.  The inner
`all(getattr(metrics, field) >= 0.85 for field in [...])` guard is
rendered as the conjunction with the outer threshold test; when either
part fails, control falls through to the lower tiers exactly as in the
source. -/
def determine_tier_and_adjustment (cfg : Config) (overall_score : ℚ)
    (m : ExceptionalMetrics) : String × ℚ :=
  if overall_score ≥ cfg.exceptional_threshold ∧ m.combat_score ≥ 0.85 ∧
      m.teamfight_contribution ≥ 0.85 ∧ m.game_impact ≥ 0.85 then
    ("exceptional", min cfg.max_mmr_gain ((overall_score - 0.9) * 50))
  else if overall_score ≥ cfg.excellent_threshold then
    ("excellent", 0)
  else if overall_score ≥ cfg.very_good_threshold then
    ("very_good", max (-10) ((overall_score - 0.7) * (-50)))
  else
    ("normal", -25)

/-- The `metrics_list` of `ExceptionalAnalyzer.validate_consistency`. -/
def consistency_metrics (m : ExceptionalMetrics) : List ℚ :=
  [m.combat_score, m.farm_efficiency, m.map_impact, m.objective_control,
   m.teamfight_contribution]

/-- Population variance of the five consistency metrics;
`numpy.std(metrics_list)` is the population standard deviation, i.e.
the square root of this value. -/
def variance5 (m : ExceptionalMetrics) : ℚ :=
  let l := consistency_metrics m
  let mean := l.sum / 5
  (l.map fun x => (x - mean) ^ 2).sum / 5

/-- `ExceptionalAnalyzer.validate_consistency`.  BUG IN THE SOURCE: the
body computes `np.std(metrics_list)` but `exceptional.py` never imports
numpy, so the call raises `NameError` whenever it is reached.  The
definition models the evident intent (`numpy.std`); the comparison
`std_dev > 0.3` is rendered as `variance > 0.09`, equivalent because
both sides of the source comparison are nonnegative. -/
def validate_consistency (m : ExceptionalMetrics) : Bool :=
  if variance5 m > 0.09 then false else true

/-- `ExceptionalAnalyzer.validate_performance` (its `match_data` use is
the single key `duration`). -/
def validate_performance (cfg : Config) (m : ExceptionalMetrics)
    (duration : ℤ) : Bool :=
  if duration < cfg.min_game_duration then false
  else if m.teamfight_contribution < cfg.min_teamfight_participation then
    false
  else if !validate_consistency m then false
  else true

/-- Tail of `ExceptionalAnalyzer.analyze_exceptional_performance` after
the metric computation.  Modelled from the spec: the methods
`calculate_exceptional_metrics` calls (`calculate_combat_score`, ...)
and `calculate_overall_score` are invoked but have no definition in the
repository, so the computed metrics bundle and overall score are taken
as inputs. -/
def analyze_exceptional_performance (cfg : Config)
    (metrics : ExceptionalMetrics) (overall_score : ℚ) (duration : ℤ) :
    Bool × String × ℚ × ExceptionalMetrics :=
  if !validate_performance cfg metrics duration then
    (false, "normal", 0, metrics)
  else
    let ta := determine_tier_and_adjustment cfg overall_score metrics
    (ta.1 != "normal", ta.1, ta.2, metrics)

end Exceptional

namespace Safety

/-- `SafetyChecker.default_config['suspicious_performance_threshold']`. -/
def suspicious_performance_threshold : ℚ := 0.95

/-- `SafetyChecker.default_config['minimum_game_duration']` (minutes). -/
def minimum_game_duration : ℤ := 25

/-- `SafetyChecker.check_game_duration`. -/
def check_game_duration (duration : ℤ) : Bool × String :=
  if duration < minimum_game_duration * 60 then
    (false, "Game too short: " ++ toString duration ++ "s")
  else (true, "")

/-- The `for is_valid, reason in checks` loop of
`SafetyChecker.validate_performance`: return `(False, reason)` for the
first failing check, `(True, "")` when none fails. -/
def firstFailing : List (Bool × String) → Bool × String
  | [] => (true, "")
  | (isValid, reason) :: rest =>
      if isValid then firstFailing rest else (false, reason)

/-- `SafetyChecker.validate_performance`.  Modelled from the spec: of the
six checks assembled into the `checks` list, `check_teamfight_participation`,
`check_tilt_factor`, `check_game_balance` and `check_recent_performances`
are called but defined nowhere in the repository; the spec (§4.4)
describes all six as boolean checks each with a specific reason string,
so the six check results are taken as inputs, in the source order: game
duration, teamfight participation, tilt factor, game balance, recent
performances, suspicious patterns. -/
def validate_performance
    (duration_check teamfight_check tilt_check balance_check recent_check
      suspicious_check : Bool × String) : Bool × String :=
  firstFailing [duration_check, teamfight_check, tilt_check, balance_check,
    recent_check, suspicious_check]

/-- Python `history[-5:]`: the at-most-five most recent entries. -/
def last5 (history : List ℚ) : List ℚ := history.drop (history.length - 5)

/-- `SafetyChecker.check_suspicious_patterns`.  The performance history
is modelled by its list of scores (the source reads `p['score']` of each
entry); the nested `if` pair of the source is rendered as one
conjunction, the fallthrough being identical.  Modelled from the spec:
`detect_unusual_patterns` delegates to `check_impossible_stats`,
`check_unusual_ratios` and `check_consistency_patterns`, none of which
is defined in the repository, so its boolean outcome is taken as the
input `unusual`. -/
def check_suspicious_patterns (history : List ℚ) (performance_score : ℚ)
    (unusual : Bool) : Bool × String :=
  if performance_score > suspicious_performance_threshold ∧
      ∀ score ∈ last5 history, score > suspicious_performance_threshold then
    (false, "Suspiciously consistent high performance")
  else if unusual then (false, "Unusual stat patterns detected")
  else (true, "")

end Safety

namespace Performance

/-- The fields `PerformanceAnalyzer.calculate_base_metrics` and its
helpers read from `player.stats` (Python duck typing: `core/player.py`'s
`PlayerStats` lacks the ward fields this analyzer reads, while
`analysis/metrics.py`'s `GameMetrics` carries all of them). -/
structure StatsView where
  kills : ℤ := 0
  deaths : ℤ := 0
  assists : ℤ := 0
  last_hits : ℤ := 0
  damage_dealt : ℤ := 0
  wards_placed : ℤ := 0
  wards_destroyed : ℤ := 0
  building_damage : ℤ := 0
deriving DecidableEq, Repr

/-- The dict returned by `calculate_base_metrics`. -/
structure BaseMetrics where
  kda : ℚ
  cs_per_min : ℚ
  damage_share : ℚ
  vision_score : ℚ
  objective_score : ℚ
deriving DecidableEq, Repr

/-- `PerformanceAnalyzer.calculate_vision_score`: divides by the game
duration in minutes (raises when it is zero); the stats object has no
`vision_uptime` attribute, so the `hasattr` default 0.5 applies. -/
def calculate_vision_score (stats : StatsView) (duration : ℤ) : Option ℚ :=
  let minutes : ℚ := (duration : ℚ) / 60
  (fdiv (stats.wards_placed : ℚ) minutes).bind fun placed_rate =>
    (fdiv (stats.wards_destroyed : ℚ) minutes).map fun destroyed_rate =>
      let ward_score := placed_rate * 0.4
      let deward_score := destroyed_rate * 0.3
      let uptime_score := (0.5 : ℚ) * 0.3
      min 1 (ward_score + deward_score + uptime_score)

/-- `PerformanceAnalyzer.calculate_objective_score`:
`match_data.get('team_building_damage', 1)` defaults a missing key to 1
but a present zero value is divided unclamped; the stats object has no
`objective_participation` (getattr default 0.5) nor
`roshan_participation` (getattr default 0.0) attribute. -/
def calculate_objective_score (stats : StatsView)
    (team_building_damage : Option ℤ) : Option ℚ :=
  let tbd := team_building_damage.getD 1
  (fdiv (stats.building_damage : ℚ) (tbd : ℚ)).map fun share =>
    let objective_participation : ℚ := 0.5
    let roshan_participation : ℚ := 0
    min 1 (share * 0.4 + objective_participation * 0.4 +
      roshan_participation * 0.2)

/-- `PerformanceAnalyzer.calculate_base_metrics`: `deaths` is clamped
with `max(1, ...)`, but the divisions by `match_data['duration'] / 60`
and by `match_data['team_total_damage']` are unclamped, so either being
zero raises. -/
def calculate_base_metrics (stats : StatsView)
    (duration team_total_damage : ℤ) (team_building_damage : Option ℤ) :
    Option BaseMetrics :=
  let kda := ((stats.kills + stats.assists : ℤ) : ℚ) /
    ((max 1 stats.deaths : ℤ) : ℚ)
  (fdiv (stats.last_hits : ℚ) ((duration : ℚ) / 60)).bind fun cs_per_min =>
    (fdiv (stats.damage_dealt : ℚ) (team_total_damage : ℚ)).bind
      fun damage_share =>
        (calculate_vision_score stats duration).bind fun vision =>
          (calculate_objective_score stats team_building_damage).map
            fun objective =>
              ⟨kda, cs_per_min, damage_share, vision, objective⟩

end Performance

namespace MatchMaker

/-- `MatchMaker.default_config['role_importance']`. -/
def role_importance : ℚ := 0.3

/-- `MatchMaker.default_config['skill_importance']`. -/
def skill_importance : ℚ := 0.3

/-- `MatchMaker.default_config['synergy_importance']`. -/
def synergy_importance : ℚ := 0.2

/-- `MatchMaker.default_config['communication_importance']`. -/
def communication_importance : ℚ := 0.2

/-- The weighted combination `MatchMaker.evaluate_match_quality` uses to
produce `overall_score` from its five sub-scores.  Note that
`skill_importance` is applied to BOTH `team_balance` and
`skill_distribution`. -/
def evaluate_match_quality_overall (team_balance role_synergy
    skill_distribution communication hero_synergy : ℚ) : ℚ :=
  team_balance * skill_importance + role_synergy * role_importance +
    skill_distribution * skill_importance +
    communication * communication_importance +
    hero_synergy * synergy_importance

/-- The five weights `evaluate_match_quality` applies to its five
sub-scores, in source order. -/
def applied_weights : List ℚ :=
  [skill_importance, role_importance, skill_importance,
   communication_importance, synergy_importance]

/-- The weight table of `QualityAssessment.calculate_overall_quality`
(`matchmaking/quality.py`), the repository's other match-quality
combiner, for comparison. -/
def quality_assessment_weights : List (String × ℚ) :=
  [("role_balance", 0.25), ("skill_balance", 0.25), ("hero_synergy", 0.2),
   ("team_chemistry", 0.15), ("playstyle_compatibility", 0.15)]

end MatchMaker

/-- The Option-valued calculator completed without raising and returned
a value in [0,1]. -/
def inUnit (o : Option ℚ) : Prop := ∃ q, o = some q ∧ 0 ≤ q ∧ q ≤ 1

namespace MMR

/-- `calculate_mmr_adjustment` of `matchmaking.py`.  The helpers
`calculate_performance_score`, `calculate_team_play_bonus`,
`calculate_role_execution` and `calculate_behavior_modifier` are called
there but defined nowhere in the repository; their values are taken as
inputs (as the claim stipulates). -/
def calculate_mmr_adjustment (victory : Bool)
    (performance team_play role_execution behavior_modifier : ℚ) : ℚ :=
  let base_mmr : ℚ := 25
  let game_outcome := 0.8 * (if victory then base_mmr else -base_mmr)
  let performance_modifier := 0.2 * (performance - 0.5) * base_mmr
  (game_outcome + performance_modifier) * (1 + team_play) *
    (1 + role_execution) * behavior_modifier

end MMR

/-! ## General helper lemmas -/

theorem fdiv_eq_none {a b : ℚ} : fdiv a b = none ↔ b = 0 := by
  unfold fdiv
  split_ifs with h <;> simp [h]

theorem unit_min_of_nonneg {x : ℚ} (hx : 0 ≤ x) :
    0 ≤ min 1 x ∧ min 1 x ≤ 1 :=
  ⟨le_min (by norm_num) hx, min_le_left _ _⟩

theorem blend2_unit {a b wa wb : ℚ} (ha0 : 0 ≤ a) (ha1 : a ≤ 1)
    (hb0 : 0 ≤ b) (hb1 : b ≤ 1) (hwa : 0 ≤ wa) (hwb : 0 ≤ wb)
    (hw : wa + wb ≤ 1) : 0 ≤ a * wa + b * wb ∧ a * wa + b * wb ≤ 1 := by
  refine ⟨add_nonneg (mul_nonneg ha0 hwa) (mul_nonneg hb0 hwb), ?_⟩
  have h1 : a * wa ≤ wa := mul_le_of_le_one_left hwa ha1
  have h2 : b * wb ≤ wb := mul_le_of_le_one_left hwb hb1
  linarith

theorem blend3_unit {a b c wa wb wc : ℚ} (ha0 : 0 ≤ a) (ha1 : a ≤ 1)
    (hb0 : 0 ≤ b) (hb1 : b ≤ 1) (hc0 : 0 ≤ c) (hc1 : c ≤ 1)
    (hwa : 0 ≤ wa) (hwb : 0 ≤ wb) (hwc : 0 ≤ wc)
    (hw : wa + wb + wc ≤ 1) :
    0 ≤ a * wa + b * wb + c * wc ∧ a * wa + b * wb + c * wc ≤ 1 := by
  refine ⟨add_nonneg (add_nonneg (mul_nonneg ha0 hwa) (mul_nonneg hb0 hwb))
    (mul_nonneg hc0 hwc), ?_⟩
  have h1 : a * wa ≤ wa := mul_le_of_le_one_left hwa ha1
  have h2 : b * wb ≤ wb := mul_le_of_le_one_left hwb hb1
  have h3 : c * wc ≤ wc := mul_le_of_le_one_left hwc hc1
  linarith

theorem list_sum_nonneg_q {l : List ℚ} (h : ∀ x ∈ l, 0 ≤ x) : 0 ≤ l.sum := by
  induction l with
  | nil => simp
  | cons a t ih =>
      simp only [List.sum_cons]
      exact add_nonneg (h a (List.mem_cons_self a t))
        (ih fun x hx => h x (List.mem_cons_of_mem _ hx))

theorem list_sum_le_length_q {l : List ℚ} (h : ∀ x ∈ l, x ≤ 1) :
    l.sum ≤ l.length := by
  induction l with
  | nil => simp
  | cons a t ih =>
      simp only [List.sum_cons, List.length_cons]
      push_cast
      have := ih fun x hx => h x (List.mem_cons_of_mem _ hx)
      have ha := h a (List.mem_cons_self a t)
      linarith

theorem role_expectations_pos (r : Metrics.Role) :
    0 < (Metrics.role_expectations r).1 ∧
      0 < (Metrics.role_expectations r).2 := by
  cases r <;> norm_num [Metrics.role_expectations]

theorem role_death_thresholds_pos (r : Metrics.Role) :
    0 < Metrics.role_death_thresholds r := by
  cases r <;> norm_num [Metrics.role_death_thresholds]

theorem role_damage_expectations_pos (r : Metrics.Role) :
    0 < Metrics.role_damage_expectations r := by
  cases r <;> norm_num [Metrics.role_damage_expectations]

theorem minutes_pos {d : ℤ} (hd : 0 < d) : (0 : ℚ) < (d : ℚ) / 60 :=
  div_pos (by exact_mod_cast hd) (by norm_num)

theorem int_max_one_cast_pos (n : ℤ) : (0 : ℚ) < ((max 1 n : ℤ) : ℚ) := by
  have h : (1 : ℤ) ≤ max 1 n := le_max_left 1 n
  exact_mod_cast lt_of_lt_of_le Int.zero_lt_one h

/-! ## Per-calculator bound lemmas (used by the claim C2 theorem) -/

theorem farming_in_unit {m : Metrics.GameMetrics} {d : ℤ}
    (hd : 0 < d) (r : Metrics.Role) (hlh : 0 ≤ m.last_hits)
    (hgpm : 0 ≤ m.gpm) :
    inUnit (Metrics.calculate_farming_efficiency m d r) := by
  have hpos := mul_pos (role_expectations_pos r).1 (minutes_pos hd)
  have hcs := unit_min_of_nonneg (div_nonneg
    (by exact_mod_cast hlh : (0 : ℚ) ≤ (m.last_hits : ℚ)) (le_of_lt hpos))
  have hgp := unit_min_of_nonneg (div_nonneg hgpm
    (le_of_lt (role_expectations_pos r).2))
  refine ⟨(min 1 ((m.last_hits : ℚ) /
      ((Metrics.role_expectations r).1 * ((d : ℚ) / 60))) +
      min 1 (m.gpm / (Metrics.role_expectations r).2)) / 2, ?_, ?_, ?_⟩
  · simp [Metrics.calculate_farming_efficiency, fdiv_of_ne (ne_of_gt hpos)]
  · linarith [hcs.1, hgp.1]
  · linarith [hcs.2, hgp.2]

theorem combat_in_unit (m : Metrics.GameMetrics) (td : ℤ)
    (r : Metrics.Role) (hhd : 0 ≤ m.hero_damage) (hk : 0 ≤ m.kills)
    (ha : 0 ≤ m.assists) :
    0 ≤ Metrics.calculate_combat_efficiency m td r ∧
      Metrics.calculate_combat_efficiency m td r ≤ 1 := by
  have hds : (0 : ℚ) ≤ (m.hero_damage : ℚ) / ((max 1 td : ℤ) : ℚ) :=
    div_nonneg (by exact_mod_cast hhd) (le_of_lt (int_max_one_cast_pos td))
  have hkda : (0 : ℚ) ≤ ((m.kills + m.assists : ℤ) : ℚ) /
      ((max 1 m.deaths : ℤ) : ℚ) :=
    div_nonneg (by exact_mod_cast add_nonneg hk ha)
      (le_of_lt (int_max_one_cast_pos m.deaths))
  have h1 := unit_min_of_nonneg (div_nonneg hds
    (le_of_lt (role_damage_expectations_pos r)))
  have h2 := unit_min_of_nonneg (div_nonneg hkda
    (by norm_num : (0 : ℚ) ≤ 4))
  simp only [Metrics.calculate_combat_efficiency]
  exact blend2_unit h1.1 h1.2 h2.1 h2.2 (by norm_num) (by norm_num)
    (by norm_num)

theorem vision_in_unit {m : Metrics.GameMetrics} {d : ℤ} (hd : 0 < d)
    (hwp : 0 ≤ m.wards_placed) (hwd : 0 ≤ m.wards_destroyed) :
    inUnit (Metrics.calculate_vision_score m d) := by
  have hmin := minutes_pos hd
  have h1 : (0 : ℚ) ≤ (m.wards_placed : ℚ) / ((d : ℚ) / 60) :=
    div_nonneg (by exact_mod_cast hwp) (le_of_lt hmin)
  have h2 : (0 : ℚ) ≤ (m.wards_destroyed : ℚ) / ((d : ℚ) / 60) :=
    div_nonneg (by exact_mod_cast hwd) (le_of_lt hmin)
  refine ⟨min 1 (((m.wards_placed : ℚ) / ((d : ℚ) / 60) * 0.6 +
      (m.wards_destroyed : ℚ) / ((d : ℚ) / 60) * 0.4) / 2), ?_, ?_, ?_⟩
  · simp [Metrics.calculate_vision_score, fdiv_of_ne (ne_of_gt hmin)]
  · refine le_min (by norm_num) ?_
    positivity
  · exact min_le_left _ _

theorem utility_in_unit {m : Metrics.GameMetrics} {tf : ℤ} (htf : 1 ≤ tf)
    (hstun : 0 ≤ m.stun_duration) (hheal : 0 ≤ m.hero_healing)
    (hpart : 0 ≤ m.teamfight_participation) :
    inUnit (Metrics.calculate_utility_score m tf) := by
  have htfq : (0 : ℚ) < (tf : ℚ) * 5 := by
    have h : (1 : ℚ) ≤ (tf : ℚ) := by exact_mod_cast htf
    nlinarith
  have h1 := unit_min_of_nonneg (div_nonneg hstun (le_of_lt htfq))
  have h2 := unit_min_of_nonneg (div_nonneg
    (by exact_mod_cast hheal : (0 : ℚ) ≤ (m.hero_healing : ℚ))
    (by norm_num : (0 : ℚ) ≤ 5000))
  have h3 := unit_min_of_nonneg hpart
  refine ⟨min 1 (m.stun_duration / ((tf : ℚ) * 5)) * 0.4 +
      min 1 ((m.hero_healing : ℚ) / 5000) * 0.3 +
      min 1 m.teamfight_participation * 0.3, ?_, ?_, ?_⟩
  · simp [Metrics.calculate_utility_score, fdiv_of_ne (ne_of_gt htfq)]
  · exact (blend3_unit h1.1 h1.2 h2.1 h2.2 h3.1 h3.2 (by norm_num)
      (by norm_num) (by norm_num) (by norm_num)).1
  · exact (blend3_unit h1.1 h1.2 h2.1 h2.2 h3.1 h3.2 (by norm_num)
      (by norm_num) (by norm_num) (by norm_num)).2

theorem survival_in_unit {m : Metrics.GameMetrics} {d : ℤ} (hd : 0 < d)
    (r : Metrics.Role) (hdeaths : 0 ≤ m.deaths) :
    inUnit (Metrics.calculate_survival_score m d r) := by
  have hmin := minutes_pos hd
  refine ⟨min 1 (max 0 (1 - ((m.deaths : ℚ) / ((d : ℚ) / 60)) /
      Metrics.role_death_thresholds r)), ?_, ?_, ?_⟩
  · simp [Metrics.calculate_survival_score, fdiv_of_ne (ne_of_gt hmin)]
  · exact le_min (by norm_num) (le_max_left 0 _)
  · exact min_le_left _ _

theorem map_presence_in_unit (m : Metrics.GameMetrics)
    {gd : Metrics.GameData} (htp : 0 ≤ gd.teleports_used.getD 0)
    (hlen : gd.lane_participation.length ≤ 3)
    (hlanes : ∀ x ∈ gd.lane_participation, 0 ≤ x ∧ x ≤ 1)
    (hop0 : 0 ≤ gd.objective_presence.getD 0.5)
    (hop1 : gd.objective_presence.getD 0.5 ≤ 1) :
    0 ≤ Metrics.calculate_map_presence m gd ∧
      Metrics.calculate_map_presence m gd ≤ 1 := by
  have h1 := unit_min_of_nonneg (div_nonneg
    (by exact_mod_cast htp : (0 : ℚ) ≤ (gd.teleports_used.getD 0 : ℚ))
    (by norm_num : (0 : ℚ) ≤ 10))
  have hsum0 : (0 : ℚ) ≤ gd.lane_participation.sum :=
    list_sum_nonneg_q fun x hx => (hlanes x hx).1
  have hsum3 : gd.lane_participation.sum ≤ 3 := by
    have hlen3 : (gd.lane_participation.length : ℚ) ≤ 3 := by
      exact_mod_cast hlen
    exact le_trans (list_sum_le_length_q fun x hx => (hlanes x hx).2) hlen3
  have h2 : (0 : ℚ) ≤ gd.lane_participation.sum / 3 ∧
      gd.lane_participation.sum / 3 ≤ 1 := by
    constructor
    · positivity
    · rw [div_le_one (by norm_num : (0 : ℚ) < 3)]
      exact hsum3
  simp only [Metrics.calculate_map_presence]
  exact blend3_unit h1.1 h1.2 h2.1 h2.2 hop0 hop1 (by norm_num)
    (by norm_num) (by norm_num) (by norm_num)

theorem space_creation_in_unit (m : Metrics.GameMetrics)
    {gd : Metrics.GameData} (htd : 0 ≤ m.tower_damage)
    (hat0 : 0 ≤ gd.enemy_attention_score.getD 0.5)
    (hat1 : gd.enemy_attention_score.getD 0.5 ≤ 1)
    (hrot : 0 ≤ gd.rotations_forced.getD 0) :
    0 ≤ Metrics.calculate_space_creation m gd ∧
      Metrics.calculate_space_creation m gd ≤ 1 := by
  have hpress : (0 : ℚ) ≤ (m.tower_damage : ℚ) /
      ((max 1 gd.duration : ℤ) : ℚ) :=
    div_nonneg (by exact_mod_cast htd)
      (le_of_lt (int_max_one_cast_pos gd.duration))
  have h2 := unit_min_of_nonneg (div_nonneg hpress
    (by norm_num : (0 : ℚ) ≤ 100))
  have h3 := unit_min_of_nonneg (div_nonneg
    (by exact_mod_cast hrot : (0 : ℚ) ≤ (gd.rotations_forced.getD 0 : ℚ))
    (by norm_num : (0 : ℚ) ≤ 10))
  have hblend := blend3_unit hat0 hat1 h2.1 h2.2 h3.1 h3.2
    (by norm_num : (0 : ℚ) ≤ 0.4) (by norm_num : (0 : ℚ) ≤ 0.3)
    (by norm_num : (0 : ℚ) ≤ 0.3) (by norm_num)
  simp only [Metrics.calculate_space_creation]
  exact ⟨le_min (by norm_num) hblend.1, min_le_left _ _⟩

theorem objective_focus_in_unit (m : Metrics.GameMetrics)
    {gd : Metrics.GameData} (htd : 0 ≤ m.tower_damage)
    (hshare : m.tower_damage ≤ max 1 (gd.team_tower_damage.getD 1))
    (hr0 : 0 ≤ gd.roshan_participation.getD 0)
    (hr1 : gd.roshan_participation.getD 0 ≤ 1)
    (hoc0 : 0 ≤ gd.objective_control.getD 0)
    (hoc1 : gd.objective_control.getD 0 ≤ 1) :
    0 ≤ Metrics.calculate_objective_focus m gd ∧
      Metrics.calculate_objective_focus m gd ≤ 1 := by
  have hpos := int_max_one_cast_pos (gd.team_tower_damage.getD 1)
  have h10 : (0 : ℚ) ≤ (m.tower_damage : ℚ) /
      ((max 1 (gd.team_tower_damage.getD 1) : ℤ) : ℚ) :=
    div_nonneg (by exact_mod_cast htd) (le_of_lt hpos)
  have h11 : (m.tower_damage : ℚ) /
      ((max 1 (gd.team_tower_damage.getD 1) : ℤ) : ℚ) ≤ 1 := by
    rw [div_le_one hpos]
    exact_mod_cast hshare
  simp only [Metrics.calculate_objective_focus]
  exact blend3_unit h10 h11 hr0 hr1 hoc0 hoc1 (by norm_num) (by norm_num)
    (by norm_num) (by norm_num)

/-! ## Claim C1 -/

/-- Claim C1 (amended): every weight table sums to 1.0 — the Performance
Aggregator's per-role tables, the Exceptional Classifier's seven
game_impact weights, and `QualityAssessment.calculate_overall_quality`'s
table — EXCEPT the five top-level weights `MatchMaker.evaluate_match_quality`
applies to combine its quality sub-scores into `overall_score`, which sum
to 1.3 because `skill_importance` (0.3) is applied to both `team_balance`
and `skill_distribution`. -/
theorem weight_tables_sum (r : Metrics.Role) :
    ((Metrics.role_weights r).map Prod.snd).sum = 1 ∧
    ((Exceptional.game_impact_weights.map Prod.snd).sum = 1) ∧
    ((MatchMaker.quality_assessment_weights.map Prod.snd).sum = 1) ∧
    MatchMaker.applied_weights.sum = 13 / 10 := by
  refine ⟨?_, ?_, ?_, ?_⟩
  · cases r <;> norm_num [Metrics.role_weights]
  · norm_num [Exceptional.game_impact_weights]
  · norm_num [MatchMaker.quality_assessment_weights]
  · norm_num [MatchMaker.applied_weights, MatchMaker.skill_importance,
      MatchMaker.role_importance, MatchMaker.communication_importance,
      MatchMaker.synergy_importance]

/-- Claim C1 counterexample: the five top-level weights the Match-Quality
Evaluator (`MatchMaker.evaluate_match_quality`) uses to combine the
quality sub-scores sum to 1.3 (exhibited by combining all-ones
sub-scores), which is not within 1e-9 of 1.0. -/
theorem matchmaker_weights_not_one :
    MatchMaker.evaluate_match_quality_overall 1 1 1 1 1 = 13 / 10 ∧
    MatchMaker.applied_weights.sum = 13 / 10 ∧
    ¬ |(13 / 10 : ℚ) - 1| ≤ 1 / 1000000000 := by
  refine ⟨?_, ?_, ?_⟩
  · norm_num [MatchMaker.evaluate_match_quality_overall,
      MatchMaker.skill_importance, MatchMaker.role_importance,
      MatchMaker.communication_importance, MatchMaker.synergy_importance]
  · norm_num [MatchMaker.applied_weights, MatchMaker.skill_importance,
      MatchMaker.role_importance, MatchMaker.communication_importance,
      MatchMaker.synergy_importance]
  · rw [not_le, show (13 / 10 : ℚ) - 1 = 3 / 10 by norm_num,
      abs_of_pos (by norm_num : (0 : ℚ) < 3 / 10)]
    norm_num

/-! ## Claim C2 -/

/-- Claim C2 (amended): on the stated domain — structurally well-formed
stats and game data, positive duration, positive team damage — and with
the teamfight count at least 1 (its divisor is unclamped) and the
player's tower damage at most the clamped team tower damage, the
farm-efficiency, combat, vision, utility, survival, map-presence,
space-creation and objective-focus calculators all return values in
[0,1]; teamfight impact is the exception (see the counterexample). -/
theorem subscores_in_unit (m : Metrics.GameMetrics) (gd : Metrics.GameData)
    (role : Metrics.Role) (hm : Metrics.WellFormedStats m)
    (hgd : Metrics.WellFormedGameData gd) (hdur : 0 < gd.duration)
    (htdmg : 0 < gd.team_damage) (htf : 1 ≤ gd.team_fights)
    (hshare : m.tower_damage ≤ max 1 (gd.team_tower_damage.getD 1)) :
    inUnit (Metrics.calculate_farming_efficiency m gd.duration role) ∧
    (0 ≤ Metrics.calculate_combat_efficiency m gd.team_damage role ∧
      Metrics.calculate_combat_efficiency m gd.team_damage role ≤ 1) ∧
    inUnit (Metrics.calculate_vision_score m gd.duration) ∧
    inUnit (Metrics.calculate_utility_score m gd.team_fights) ∧
    inUnit (Metrics.calculate_survival_score m gd.duration role) ∧
    (0 ≤ Metrics.calculate_map_presence m gd ∧
      Metrics.calculate_map_presence m gd ≤ 1) ∧
    (0 ≤ Metrics.calculate_space_creation m gd ∧
      Metrics.calculate_space_creation m gd ≤ 1) ∧
    (0 ≤ Metrics.calculate_objective_focus m gd ∧
      Metrics.calculate_objective_focus m gd ≤ 1) := by
  obtain ⟨hk, hde, has, hlh, hden, hgpm, hxpm, hhd, htd, hheal, hstun,
    hcamps, hrunes, hwp, hwd, hp0, hp1⟩ := hm
  obtain ⟨htp, hlen, hlanes, hop0, hop1, hat0, hat1, hrot, hr0, hr1,
    hoc0, hoc1, hfs0, hfs1⟩ := hgd
  exact ⟨farming_in_unit hdur role hlh hgpm,
    combat_in_unit m gd.team_damage role hhd hk has,
    vision_in_unit hdur hwp hwd,
    utility_in_unit htf hstun hheal hp0,
    survival_in_unit hdur role hde,
    map_presence_in_unit m htp hlen hlanes hop0 hop1,
    space_creation_in_unit m htd hat0 hat1 hrot,
    objective_focus_in_unit m htd hshare hr0 hr1 hoc0 hoc1⟩

/-- Claim C2 witness: the sub-score bound theorem applied at the test
suite's sample stats (a 40-minute carry game). -/
theorem subscores_in_unit_witness :
    inUnit (Metrics.calculate_farming_efficiency
      { kills := 10, deaths := 3, assists := 15, last_hits := 300,
        denies := 20, gpm := 650, xpm := 750, hero_damage := 25000,
        tower_damage := 5000, hero_healing := 1500, stun_duration := 100,
        camps_stacked := 5, runes_collected := 8, wards_placed := 15,
        wards_destroyed := 5, teamfight_participation := 0.8 }
      2400 Metrics.Role.carry) :=
  (subscores_in_unit
    { kills := 10, deaths := 3, assists := 15, last_hits := 300,
      denies := 20, gpm := 650, xpm := 750, hero_damage := 25000,
      tower_damage := 5000, hero_healing := 1500, stun_duration := 100,
      camps_stacked := 5, runes_collected := 8, wards_placed := 15,
      wards_destroyed := 5, teamfight_participation := 0.8 }
    { duration := 2400, team_damage := 100000, team_fights := 10,
      team_tower_damage := some 20000 }
    Metrics.Role.carry
    (by norm_num [Metrics.WellFormedStats])
    (by norm_num [Metrics.WellFormedGameData])
    (by norm_num) (by norm_num) (by norm_num) (by norm_num)).1

/-- Claim C2 counterexample: a structurally well-formed input with
positive duration and team damage — full teamfight participation and
fight-damage share (both in [0,1]), 10 seconds of stuns over 5 seconds
of clamped total fight duration — on which `calculate_teamfight_impact`
returns 1.3 > 1: its blend is never clamped. -/
theorem teamfight_impact_exceeds_one :
    Metrics.WellFormedStats
      { teamfight_participation := 1, stun_duration := 10 } ∧
    Metrics.WellFormedGameData
      { duration := 2400, team_damage := 100000, team_fights := 10,
        teamfight_damage_share := some 1, total_fight_duration := some 5 } ∧
    Metrics.calculate_teamfight_impact
      { teamfight_participation := 1, stun_duration := 10 }
      { duration := 2400, team_damage := 100000, team_fights := 10,
        teamfight_damage_share := some 1, total_fight_duration := some 5 } =
      13 / 10 ∧
    (1 : ℚ) < 13 / 10 := by
  refine ⟨by norm_num [Metrics.WellFormedStats],
    by norm_num [Metrics.WellFormedGameData], ?_, by norm_num⟩
  norm_num [Metrics.calculate_teamfight_impact]

/-! ## Claim C3 -/

/-- Claim C3 (amended): within the stated domain (positive duration),
`deaths`, the space-creation duration, team tower damage and total fight
duration are clamped with `max(1, ...)`, and the farm, vision and
survival calculators never raise; but the teamfight count in the utility
score and the team-total-damage divisor in `calculate_base_metrics` are
used UNCLAMPED: the utility score raises exactly when the teamfight
count is 0, and base metrics raises when team total damage is 0 (and
returns a value whenever team total damage and the defaulted team
building damage are nonzero).  The remaining calculators (combat, map
presence, space creation, objective focus, teamfight impact) are total
by construction. -/
theorem unclamped_divisors (m : Metrics.GameMetrics)
    (s : Performance.StatsView) (role : Metrics.Role) (tf : ℤ)
    {d : ℤ} (ttd : ℤ) (tbd : Option ℤ) (hd : 0 < d) :
    (Metrics.calculate_utility_score m tf = none ↔ tf = 0) ∧
    (Metrics.calculate_farming_efficiency m d role).isSome ∧
    (Metrics.calculate_vision_score m d).isSome ∧
    (Metrics.calculate_survival_score m d role).isSome ∧
    (ttd = 0 → Performance.calculate_base_metrics s d ttd tbd = none) ∧
    (ttd ≠ 0 → tbd.getD 1 ≠ 0 →
      (Performance.calculate_base_metrics s d ttd tbd).isSome) := by
  have hmin := minutes_pos hd
  refine ⟨?_, ?_, ?_, ?_, ?_, ?_⟩
  · have hiff : Metrics.calculate_utility_score m tf = none ↔
        (tf : ℚ) * 5 = 0 := by
      simp [Metrics.calculate_utility_score, fdiv_eq_none]
    rw [hiff]
    constructor
    · intro h
      rcases mul_eq_zero.mp h with h | h
      · exact_mod_cast h
      · norm_num at h
    · rintro rfl
      norm_num
  · have hden : (Metrics.role_expectations role).1 * ((d : ℚ) / 60) ≠ 0 :=
      ne_of_gt (mul_pos (role_expectations_pos role).1 hmin)
    simp [Metrics.calculate_farming_efficiency, fdiv_of_ne hden]
  · simp [Metrics.calculate_vision_score, fdiv_of_ne (ne_of_gt hmin)]
  · simp [Metrics.calculate_survival_score, fdiv_of_ne (ne_of_gt hmin)]
  · rintro rfl
    simp [Performance.calculate_base_metrics,
      fdiv_of_ne (ne_of_gt hmin), fdiv]
  · intro httd htbd
    have h1 : ((ttd : ℤ) : ℚ) ≠ 0 := Int.cast_ne_zero.mpr httd
    have h2 : ((tbd.getD 1 : ℤ) : ℚ) ≠ 0 := Int.cast_ne_zero.mpr htbd
    simp [Performance.calculate_base_metrics,
      Performance.calculate_vision_score,
      Performance.calculate_objective_score,
      fdiv_of_ne (ne_of_gt hmin), fdiv_of_ne h1, fdiv_of_ne h2]

/-- Claim C3 witness: base metrics completes on the test suite's sample
match (duration 2400, team total damage 100000). -/
theorem unclamped_divisors_witness :
    (Performance.calculate_base_metrics
      { kills := 10, assists := 15, deaths := 3, last_hits := 300,
        damage_dealt := 25000, wards_placed := 15, wards_destroyed := 5,
        building_damage := 5000 } 2400 100000 (some 20000)).isSome :=
  ((unclamped_divisors { stun_duration := 3 }
    { kills := 10, assists := 15, deaths := 3, last_hits := 300,
      damage_dealt := 25000, wards_placed := 15, wards_destroyed := 5,
      building_damage := 5000 } Metrics.Role.carry 7 100000 (some 20000)
    (by norm_num)).2.2.2.2.2) (by norm_num) (by norm_num)

/-- Claim C3 counterexample: with structurally well-formed stats (and any
positive duration and team damage), the utility score raises
(`ZeroDivisionError`, modelled `none`) when the teamfight count is 0 —
the divisor `team_fights * 5` is not clamped to 1; likewise
`calculate_base_metrics` divides by the raw team total damage, so a zero
value raises instead of being clamped to 1. -/
theorem utility_raises_on_zero_teamfights :
    Metrics.calculate_utility_score
      { stun_duration := 3, hero_healing := 1000,
        teamfight_participation := 1 / 2 } 0 = none ∧
    Metrics.WellFormedStats
      { stun_duration := 3, hero_healing := 1000,
        teamfight_participation := 1 / 2 } ∧
    Performance.calculate_base_metrics
      { kills := 1, assists := 2, deaths := 1, last_hits := 100,
        damage_dealt := 5000, wards_placed := 3, wards_destroyed := 1,
        building_damage := 500 } 2400 0 (some 1000) = none := by
  refine ⟨?_, by norm_num [Metrics.WellFormedStats], ?_⟩
  · simp [Metrics.calculate_utility_score, fdiv]
  · norm_num [Performance.calculate_base_metrics, fdiv]

/-! ## Claim C4 -/

/-- Claim C4 (amended): the farm-efficiency calculator does NOT return 0
for non-positive duration — it has no guard at all: at duration 0 every
call raises a division-by-zero error (`none`), and at negative duration
it computes with negative minutes (e.g. duration −60 yields −9/2, not
0). -/
theorem farming_zero_duration (m : Metrics.GameMetrics)
    (role : Metrics.Role) :
    Metrics.calculate_farming_efficiency m 0 role = none ∧
    Metrics.calculate_farming_efficiency { last_hits := 100, gpm := 600 }
      (-60) Metrics.Role.carry = some (-(9 / 2)) := by
  constructor
  · simp [Metrics.calculate_farming_efficiency, fdiv]
  · simp [Metrics.calculate_farming_efficiency, fdiv,
      Metrics.role_expectations]
    norm_num

/-- Claim C4 counterexample: at game duration 0 the farm-efficiency
calculator raises `ZeroDivisionError` (modelled `none`) instead of
returning 0. -/
theorem farming_zero_duration_raises :
    Metrics.calculate_farming_efficiency { last_hits := 100, gpm := 600 } 0
      Metrics.Role.carry = none := by
  simp [Metrics.calculate_farming_efficiency, fdiv]

/-! ## Claim C5 -/

/-- The first-failing-check contract of the `for is_valid, reason in
checks` loop: either all checks pass and the result is `(True, "")`, or
the list splits at a first failing check whose reason is reported. -/
theorem firstFailing_spec (l : List (Bool × String)) :
    ((∀ c ∈ l, c.1 = true) ∧ Safety.firstFailing l = (true, "")) ∨
    (∃ pre bad suf, l = pre ++ bad :: suf ∧ (∀ p ∈ pre, p.1 = true) ∧
      bad.1 = false ∧ Safety.firstFailing l = (false, bad.2)) := by
  induction l with
  | nil => exact Or.inl ⟨by simp, rfl⟩
  | cons hd tl ih =>
      obtain ⟨b, r⟩ := hd
      cases b with
      | false =>
          exact Or.inr ⟨[], (false, r), tl, by simp, by simp, rfl,
            by simp [Safety.firstFailing]⟩
      | true =>
          rcases ih with ⟨hall, heq⟩ | ⟨pre, bad, suf, hsplit, hpre, hbad, heq⟩
          · refine Or.inl ⟨?_, ?_⟩
            · intro c hc
              rcases List.mem_cons.mp hc with rfl | hc
              · rfl
              · exact hall c hc
            · simp [Safety.firstFailing, heq]
          · refine Or.inr ⟨(true, r) :: pre, bad, suf, by simp [hsplit], ?_,
              hbad, ?_⟩
            · intro p hp
              rcases List.mem_cons.mp hp with rfl | hp
              · rfl
              · exact hpre p hp
            · simp [Safety.firstFailing, heq]

/-- Claim C5: `SafetyChecker.validate_performance` evaluates its six
checks (game duration, teamfight participation, tilt factor, game
balance, recent performances, suspicious patterns — the latter four
spec-modelled, being absent from the repository) and, without raising,
returns `(True, "")` when all six pass, and otherwise `(False, r)` where
`r` is the reason string of the first failing check in that order. -/
theorem validate_first_failure (duration_check teamfight_check tilt_check
    balance_check recent_check suspicious_check : Bool × String) :
    ((∀ c ∈ [duration_check, teamfight_check, tilt_check, balance_check,
        recent_check, suspicious_check], c.1 = true) ∧
      Safety.validate_performance duration_check teamfight_check tilt_check
        balance_check recent_check suspicious_check = (true, "")) ∨
    (∃ pre bad suf,
      [duration_check, teamfight_check, tilt_check, balance_check,
        recent_check, suspicious_check] = pre ++ bad :: suf ∧
      (∀ p ∈ pre, p.1 = true) ∧ bad.1 = false ∧
      Safety.validate_performance duration_check teamfight_check tilt_check
        balance_check recent_check suspicious_check = (false, bad.2)) :=
  firstFailing_spec _

/-- Claim C5 witness: the first-failure contract instantiated at a run
where only the tilt-factor check (third in order) fails. -/
theorem validate_first_failure_witness :
    ((∀ c ∈ [((true : Bool), ""), (true, ""), (false, "Tilt factor too high"),
        (true, ""), (true, ""), (true, "")], c.1 = true) ∧
      Safety.validate_performance (true, "") (true, "")
        (false, "Tilt factor too high") (true, "") (true, "") (true, "") =
        (true, "")) ∨
    (∃ pre bad suf,
      ([(true, ""), (true, ""), (false, "Tilt factor too high"), (true, ""),
        (true, ""), (true, "")] : List (Bool × String)) =
        pre ++ bad :: suf ∧
      (∀ p ∈ pre, p.1 = true) ∧ bad.1 = false ∧
      Safety.validate_performance (true, "") (true, "")
        (false, "Tilt factor too high") (true, "") (true, "") (true, "") =
        (false, bad.2)) :=
  validate_first_failure _ _ _ _ _ _

/-! ## Claim C6 -/

/-- Claim C6 (amended): `check_suspicious_patterns` returns the
"Suspiciously consistent high performance" rejection exactly when the
current score exceeds 0.95 AND every one of the at-most-five most recent
historical scores exceeds 0.95 — a condition that is vacuously satisfied
by an empty (or short) history, so a single excellent game from a player
without five qualifying recent games can still be rejected; the concrete
history 0.97, 0.98, 0.96, 0.99, 0.97 followed by a new score of 0.97 is
flagged. -/
theorem suspicious_iff (history : List ℚ) (score : ℚ) (unusual : Bool) :
    (Safety.check_suspicious_patterns history score unusual =
        (false, "Suspiciously consistent high performance") ↔
      (score > 0.95 ∧ ∀ s ∈ Safety.last5 history, s > 0.95)) ∧
    Safety.check_suspicious_patterns [0.97, 0.98, 0.96, 0.99, 0.97]
      (97 / 100) unusual =
      (false, "Suspiciously consistent high performance") := by
  constructor
  · unfold Safety.check_suspicious_patterns
      Safety.suspicious_performance_threshold
    split_ifs with h1 h2
    · exact iff_of_true rfl h1
    · exact iff_of_false
        (fun h => absurd (congrArg Prod.snd h) (by decide)) h1
    · exact iff_of_false
        (fun h => absurd (congrArg Prod.fst h) (by decide)) h1
  · unfold Safety.check_suspicious_patterns
    split_ifs with h
    · rfl
    all_goals
      refine absurd ⟨by norm_num [Safety.suspicious_performance_threshold],
        ?_⟩ h
      intro s hs
      simp [Safety.last5] at hs
      rcases hs with rfl | rfl | rfl | rfl | rfl <;>
        norm_num [Safety.suspicious_performance_threshold]

/-- Claim C6 witness: the characterisation applied at a score of 0.96
with empty history (the vacuous branch of the amended claim). -/
theorem suspicious_iff_witness :
    Safety.check_suspicious_patterns [] (96 / 100) false =
      (false, "Suspiciously consistent high performance") :=
  (suspicious_iff [] (96 / 100) false).1.mpr
    ⟨by norm_num, by simp [Safety.last5]⟩

/-- Claim C6 counterexample: a player with NO history at all (hence no
five-game run of scores above 0.95) scoring 0.97 IS rejected as
"suspiciously consistent": Python's `all` over the empty slice
`history[-5:]` is vacuously true. -/
theorem suspicious_empty_history :
    Safety.check_suspicious_patterns [] (97 / 100) false =
      (false, "Suspiciously consistent high performance") := by
  unfold Safety.check_suspicious_patterns
  split_ifs with h
  · rfl
  all_goals
    exact absurd ⟨by norm_num [Safety.suspicious_performance_threshold],
      by simp [Safety.last5]⟩ h

/-! ## Claim C7 -/

/-- Claim C7 (on the modelled intent of the source, whose `np.std` call
raises `NameError` because numpy is never imported in `exceptional.py`):
the consistency check returns false exactly when the standard deviation
of the five scores {combat, farm, map impact, objective, teamfight}
exceeds 0.30 — stated as the population variance exceeding 0.09 — and a
failed consistency check makes the analysis ineligible: it returns tier
"normal" with mmr adjustment 0.0. -/
theorem consistency_variance (m : Exceptional.ExceptionalMetrics) :
    (Exceptional.validate_consistency m = false ↔
      (0.09 : ℚ) < Exceptional.variance5 m) ∧
    ∀ (overall : ℚ) (duration : ℤ),
      Exceptional.validate_consistency m = false →
        Exceptional.analyze_exceptional_performance Exceptional.default_config
          m overall duration = (false, "normal", 0, m) := by
  constructor
  · unfold Exceptional.validate_consistency
    split_ifs with h
    · exact iff_of_true rfl h
    · exact iff_of_false (by simp) h
  · intro overall duration hfalse
    have hv : Exceptional.validate_performance Exceptional.default_config m
        duration = false := by
      unfold Exceptional.validate_performance
      split_ifs with h1 h2 h3
      · rfl
      · rfl
      · rfl
      · rw [hfalse] at h3
        exact absurd rfl h3
    simp [Exceptional.analyze_exceptional_performance, hv]

/-- Claim C7 witness: a bundle with combat score 1 and the other four
consistency metrics 0 has variance 0.16 > 0.09, fails the consistency
check, and is forced to tier "normal" with adjustment 0. -/
theorem consistency_variance_witness :
    Exceptional.validate_consistency { combat_score := 1 } = false ∧
    Exceptional.analyze_exceptional_performance Exceptional.default_config
      { combat_score := 1 } 0.95 2000 =
      (false, "normal", 0, { combat_score := 1 }) := by
  have hgt : (0.09 : ℚ) <
      Exceptional.variance5 { combat_score := 1 } := by
    norm_num [Exceptional.variance5, Exceptional.consistency_metrics]
  have hfalse := (consistency_variance { combat_score := 1 }).1.mpr hgt
  exact ⟨hfalse,
    (consistency_variance { combat_score := 1 }).2 0.95 2000 hfalse⟩

/-! ## Claim C8 -/

/-- Claim C8: with the default configuration,
`determine_tier_and_adjustment` assigns tier "exceptional" if and only
if the overall score is at least 0.90 AND each of combat score,
teamfight contribution and game impact is at least 0.85, and in that
case the mmr adjustment is `min(max_mmr_gain, (overall − 0.9) × 50)`
with `max_mmr_gain = 5`. -/
theorem exceptional_tier (overall : ℚ)
    (m : Exceptional.ExceptionalMetrics) :
    ((Exceptional.determine_tier_and_adjustment Exceptional.default_config
        overall m).1 = "exceptional" ↔
      (overall ≥ 0.90 ∧ m.combat_score ≥ 0.85 ∧
        m.teamfight_contribution ≥ 0.85 ∧ m.game_impact ≥ 0.85)) ∧
    ((overall ≥ 0.90 ∧ m.combat_score ≥ 0.85 ∧
        m.teamfight_contribution ≥ 0.85 ∧ m.game_impact ≥ 0.85) →
      Exceptional.determine_tier_and_adjustment Exceptional.default_config
        overall m = ("exceptional", min 5 ((overall - 0.9) * 50))) := by
  unfold Exceptional.determine_tier_and_adjustment Exceptional.default_config
  constructor
  · split_ifs with h1 h2 h3
    · exact iff_of_true rfl h1
    · exact iff_of_false
        (fun hc => absurd hc (by decide : ¬("excellent" = "exceptional"))) h1
    · exact iff_of_false
        (fun hc => absurd hc (by decide : ¬("very_good" = "exceptional"))) h1
    · exact iff_of_false
        (fun hc => absurd hc (by decide : ¬("normal" = "exceptional"))) h1
  · intro h
    rw [if_pos h]

/-- Claim C8 witness: overall score 0.92 with all three component scores
at 0.9 earns tier "exceptional" with adjustment min(5, 0.02 × 50). -/
theorem exceptional_tier_witness :
    Exceptional.determine_tier_and_adjustment Exceptional.default_config 0.92
      { combat_score := 0.9, teamfight_contribution := 0.9,
        game_impact := 0.9 } =
      ("exceptional", min 5 ((0.92 - 0.9) * 50)) :=
  (exceptional_tier 0.92 _).2 ⟨by norm_num, by norm_num, by norm_num,
    by norm_num⟩

/-! ## Claim C9 -/

/-- Claim C9: taking the helper-computed performance score, team-play
bonus, role-execution bonus and behavior modifier as given,
`calculate_mmr_adjustment` returns exactly
`(0.8 × (+25 if victory else −25) + 0.2 × (performance − 0.5) × 25) ×
(1 + team_play) × (1 + role_execution) × behavior_modifier`; in
particular a victory with neutral performance 0.5, zero bonuses and
behavior modifier 1.0 yields exactly 20.0. -/
theorem mmr_formula (victory : Bool) (p tp re bm : ℚ) :
    MMR.calculate_mmr_adjustment victory p tp re bm =
      (0.8 * (if victory then (25 : ℚ) else -25) + 0.2 * (p - 0.5) * 25) *
        (1 + tp) * (1 + re) * bm ∧
    MMR.calculate_mmr_adjustment true (1 / 2) 0 0 1 = 20 := by
  refine ⟨rfl, ?_⟩
  norm_num [MMR.calculate_mmr_adjustment]

/-! ## Claim C10 -/

/-- Claim C10: whenever the overall score reaches 0.90 but at least one
of combat score, teamfight contribution and game impact is below 0.85,
`determine_tier_and_adjustment` (default configuration) falls through to
tier "excellent" with adjustment 0.0 — never "very_good", "normal" or a
penalty. -/
theorem floor_fail_excellent (overall : ℚ)
    (m : Exceptional.ExceptionalMetrics) (hov : overall ≥ 0.90)
    (hfail : ¬(m.combat_score ≥ 0.85 ∧ m.teamfight_contribution ≥ 0.85 ∧
      m.game_impact ≥ 0.85)) :
    Exceptional.determine_tier_and_adjustment Exceptional.default_config
      overall m = ("excellent", 0) := by
  unfold Exceptional.determine_tier_and_adjustment Exceptional.default_config
  rw [if_neg (fun h => hfail ⟨h.2.1, h.2.2.1, h.2.2.2⟩),
    if_pos (le_trans (by norm_num : (0.80 : ℚ) ≤ 0.90) hov)]

/-- Claim C10 witness: overall 0.92 with combat score 0.5 (component
floor failed) gives exactly ("excellent", 0). -/
theorem floor_fail_excellent_witness :
    Exceptional.determine_tier_and_adjustment Exceptional.default_config 0.92
      { combat_score := 0.5, teamfight_contribution := 0.9,
        game_impact := 0.9 } = ("excellent", 0) :=
  floor_fail_excellent 0.92 _ (by norm_num)
    (fun h => absurd h.1 (by norm_num))
